import Mathlib

/-!
Verification of the job-orchestration core of a browser-automation service
(source ingestion, audio-job tracking and retrieval).  Python functions from
`notebooklm_automator.core` are embedded shallowly: pure list manipulation
becomes Lean functions on lists, page interactions become functions over an
explicit environment record describing what each DOM query or collaborator
call returns, and Python exceptions become `Except` values (a `try/except`
block becomes a `match` on the `Except`).
-/

set_option maxRecDepth 4000

/-! ## Sources: the grouping transform (`core/sources.py`, `group_sources`) -/

/-- A source dictionary as consumed by `group_sources`: only the `type` and
`content` keys are read, and `dict.get` returns `None` for a missing key,
hence both fields are `Option String`. -/
structure Source where
  type : Option String
  content : Option String
deriving DecidableEq, Repr

/-- `url_like_types = {"url", "youtube"}` membership test:
`source.get("type") in url_like_types` (Python `None in {...}` is false). -/
def isUrlLike (s : Source) : Bool :=
  match s.type with
  | some t => t == "url" || t == "youtube"
  | none => false

/-- `"\n".join(source.get("content", "") for source in url_like_sources)`. -/
def joinedContent (us : List Source) : String :=
  String.intercalate "\n" (us.map (fun s => s.content.getD ""))

/-- Embedding of `group_sources`: URL and YouTube sources are merged into a
single item (type taken from the first such source, contents newline-joined)
which is placed first, followed by all other sources in order. -/
def group_sources (sources : List Source) : List Source :=
  let url_like_sources := sources.filter isUrlLike
  let other_sources := sources.filter (fun s => !isUrlLike s)
  match url_like_sources with
  | [] => other_sources
  | f :: rest =>
      { type := some (f.type.getD "url"),
        content := some (joinedContent (f :: rest)) } :: other_sources

/-- The grouped item built from the url-like sources of the input. -/
def groupedItem (f : Source) (rest : List Source) : Source :=
  { type := some (f.type.getD "url"), content := some (joinedContent (f :: rest)) }

/-- Reading of the claim under test for the grouping transform: the grouped
item replaces the first url-like source in place (later url-like sources are
dropped, all other items keep their positions around it). -/
def group_sources_at_first_position (sources : List Source) : List Source :=
  match sources.filter isUrlLike with
  | [] => sources.filter (fun s => !isUrlLike s)
  | f :: rest => placeAt (groupedItem f rest) sources
where
  /-- Walk the list and substitute the grouped item for the first url-like
  element, dropping the remaining url-like elements. -/
  placeAt (g : Source) : List Source → List Source
    | [] => []
    | s :: t =>
        if isUrlLike s then g :: t.filter (fun x => !isUrlLike x)
        else s :: placeAt g t

theorem group_sources_eq_nil_case (sources : List Source)
    (h : sources.filter isUrlLike = []) :
    group_sources sources = sources.filter (fun s => !isUrlLike s) := by
  simp [group_sources, h]

theorem group_sources_eq_cons_case (sources : List Source) (f : Source)
    (rest : List Source) (h : sources.filter isUrlLike = f :: rest) :
    group_sources sources = groupedItem f rest :: sources.filter (fun s => !isUrlLike s) := by
  simp [group_sources, h, groupedItem]

/-- Python substring test `needle in haystack`. -/
def pyIn (needle hay : String) : Bool :=
  hay.data.tails.any (fun t => List.isPrefixOf needle.data t)

theorem intercalate_singleton (x : String) : String.intercalate "\n" [x] = x := rfl

theorem intercalate_pair (a b : String) :
    String.intercalate "\n" [a, b] = a ++ "\n" ++ b := rfl

/-- The outcome record built by `SourceManager.add_sources` for one
(possibly grouped) source. -/
structure SourceResult where
  source : Source
  success : Bool
  error : Option String
deriving DecidableEq, Repr

/-- Collaborator outcomes for one ingestion call: `add_url` and `add_text`
either succeed (`none`) or raise with a message (`some msg`), which
`add_sources` catches per item. -/
structure AddEnv where
  addUrl : String → Option String → Option String
  addText : Option String → Option String

/-- The per-item body of the `add_sources` loop: dispatch on the type key,
catch any exception locally and record it in the result. -/
def submitOne (env : AddEnv) (s : Source) : SourceResult :=
  match s.type with
  | some t =>
      if t == "url" || t == "youtube" then
        match env.addUrl t s.content with
        | none => ⟨s, true, none⟩
        | some e => ⟨s, false, some e⟩
      else if t == "text" then
        match env.addText s.content with
        | none => ⟨s, true, none⟩
        | some e => ⟨s, false, some e⟩
      else ⟨s, false, some ("Unknown source type: " ++ t)⟩
  | none => ⟨s, false, some "Unknown source type: None"⟩

/-- Embedding of `SourceManager.add_sources`: group, then submit each
resulting item, collecting one result per grouped item. -/
def add_sources (env : AddEnv) (sources : List Source) : List SourceResult :=
  (group_sources sources).map (submitOne env)

theorem submitOne_source (env : AddEnv) (s : Source) : (submitOne env s).source = s := by
  obtain ⟨ty, co⟩ := s
  cases ty with
  | none => rfl
  | some t =>
      simp only [submitOne]
      split
      · split <;> rfl
      · split
        · split <;> rfl
        · rfl

/-- C1 (counterexample): on `[text a, url u]` the code emits the grouped link
item first, `[url u, text a]`, not at the original position of the first
url-like source, which would give `[text a, url u]`. -/
theorem group_sources_first_position_counterexample :
    group_sources [⟨some "text", some "a"⟩, ⟨some "url", some "u"⟩] =
      [⟨some "url", some "u"⟩, ⟨some "text", some "a"⟩] ∧
    group_sources_at_first_position
        [⟨some "text", some "a"⟩, ⟨some "url", some "u"⟩] =
      [⟨some "text", some "a"⟩, ⟨some "url", some "u"⟩] ∧
    group_sources [⟨some "text", some "a"⟩, ⟨some "url", some "u"⟩] ≠
      group_sources_at_first_position
        [⟨some "text", some "a"⟩, ⟨some "url", some "u"⟩] := by
  refine ⟨by decide, by decide, by decide⟩

/-- C1 (amended): the grouped item (when at least one url/youtube source
exists) is placed at the head of the output, and the non-link-kind sources
follow it as a suffix, in their original relative order. -/
theorem group_sources_grouped_head_order (sources : List Source) :
    (∀ f rest, sources.filter isUrlLike = f :: rest →
        group_sources sources =
          groupedItem f rest :: sources.filter (fun s => !isUrlLike s)) ∧
    (sources.filter isUrlLike = [] →
        group_sources sources = sources.filter (fun s => !isUrlLike s)) ∧
    sources.filter (fun s => !isUrlLike s) <:+ group_sources sources ∧
    List.Sublist (sources.filter (fun s => !isUrlLike s)) sources := by
  refine ⟨fun f rest h => group_sources_eq_cons_case sources f rest h,
    fun h => group_sources_eq_nil_case sources h, ?_, List.filter_sublist _⟩
  cases h : sources.filter isUrlLike with
  | nil => rw [group_sources_eq_nil_case sources h]
  | cons f rest =>
      rw [group_sources_eq_cons_case sources f rest h]
      exact List.suffix_cons _ _

/-- C1 witness: instantiation on a concrete mixed list. -/
theorem group_sources_grouped_head_order_witness :
    group_sources
        [⟨some "text", some "a"⟩, ⟨some "url", some "u"⟩, ⟨some "url", some "v"⟩] =
      groupedItem ⟨some "url", some "u"⟩ [⟨some "url", some "v"⟩] ::
        [Source.mk (some "text") (some "a")] :=
  (group_sources_grouped_head_order _).1 _ _ (by decide)

/-- C6: a list of only url/youtube sources collapses to exactly one item,
newline-joined in order with the first kind; and two web links submitted
through `add_sources` yield exactly one result echoing the joined content. -/
theorem group_sources_all_links_single_item :
    (∀ (f : Source) (rest : List Source),
        (∀ s ∈ f :: rest, isUrlLike s = true) →
        group_sources (f :: rest) =
          [{ type := some (f.type.getD "url"),
             content := some (String.intercalate "\n"
               ((f :: rest).map (fun s => s.content.getD ""))) }]) ∧
    (∀ (env : AddEnv) (a b : String), ∃ r,
        add_sources env [⟨some "url", some a⟩, ⟨some "url", some b⟩] = [r] ∧
        r.source = { type := some "url", content := some (a ++ "\n" ++ b) }) := by
  constructor
  · intro f rest hall
    have hp : (f :: rest).filter isUrlLike = f :: rest :=
      List.filter_eq_self.mpr hall
    have hn : (f :: rest).filter (fun s => !isUrlLike s) = [] :=
      List.filter_eq_nil_iff.mpr (fun a ha => by simp [hall a ha])
    rw [group_sources_eq_cons_case _ f rest hp, hn]
    rfl
  · intro env a b
    refine ⟨submitOne env ⟨some "url", some (a ++ "\n" ++ b)⟩, ?_, ?_⟩
    · show (group_sources _).map (submitOne env) = _
      have : group_sources [⟨some "url", some a⟩, ⟨some "url", some b⟩] =
          [⟨some "url", some (a ++ "\n" ++ b)⟩] := by
        rw [group_sources_eq_cons_case _ ⟨some "url", some a⟩
          [⟨some "url", some b⟩] (by simp [isUrlLike])]
        simp [groupedItem, joinedContent, isUrlLike, intercalate_pair]
      rw [this, List.map_cons, List.map_nil]
    · exact submitOne_source env _

/-- C6 witness: the two-web-link scenario at concrete URLs with submissions
succeeding. -/
theorem group_sources_all_links_single_item_witness :
    (group_sources
        [⟨some "url", some "https://a.example"⟩, ⟨some "url", some "https://b.example"⟩] =
      [{ type := some "url",
         content := some (String.intercalate "\n" ["https://a.example", "https://b.example"]) }]) ∧
    (∃ r, add_sources ⟨fun _ _ => none, fun _ => none⟩
        [⟨some "url", some "https://a.example"⟩, ⟨some "url", some "https://b.example"⟩] = [r] ∧
      r.source = { type := some "url",
                   content := some ("https://a.example" ++ "\n" ++ "https://b.example") }) := by
  constructor
  · exact (group_sources_all_links_single_item).1 ⟨some "url", some "https://a.example"⟩
      [⟨some "url", some "https://b.example"⟩] (by decide)
  · exact (group_sources_all_links_single_item).2 ⟨fun _ _ => none, fun _ => none⟩
      "https://a.example" "https://b.example"

theorem filter_not_filter_urlLike (m : List Source) :
    (m.filter (fun s => !isUrlLike s)).filter isUrlLike = [] := by
  rw [List.filter_filter]
  exact List.filter_eq_nil_iff.mpr (fun a _ => by cases h : isUrlLike a <;> simp [h])

theorem filter_not_idem_urlLike (m : List Source) :
    (m.filter (fun s => !isUrlLike s)).filter (fun s => !isUrlLike s) =
      m.filter (fun s => !isUrlLike s) := by
  rw [List.filter_filter]
  exact List.filter_congr (fun a _ => by cases h : isUrlLike a <;> simp [h])

/-- C10: `group_sources` is idempotent — applying it to its own output
reproduces that output exactly. -/
theorem group_sources_idempotent (l : List Source) :
    group_sources (group_sources l) = group_sources l := by
  cases h : l.filter isUrlLike with
  | nil =>
      rw [group_sources_eq_nil_case l h,
        group_sources_eq_nil_case _ (filter_not_filter_urlLike l),
        filter_not_idem_urlLike l]
  | cons f rest =>
      have hf : isUrlLike f = true :=
        List.of_mem_filter (p := isUrlLike) (l := l)
          (by rw [h]; exact List.mem_cons_self _ _)
      obtain ⟨t, hft⟩ : ∃ t, f.type = some t := by
        cases hft : f.type with
        | none => rw [isUrlLike, hft] at hf; exact absurd hf (by simp)
        | some t => exact ⟨t, rfl⟩
      have hg : isUrlLike (groupedItem f rest) = true := by
        rw [isUrlLike, groupedItem]
        simpa [isUrlLike, hft] using hf
      rw [group_sources_eq_cons_case l f rest h]
      have h1 : ((groupedItem f rest) :: l.filter (fun s => !isUrlLike s)).filter
          isUrlLike = [groupedItem f rest] := by
        simp [List.filter_cons, hg, filter_not_filter_urlLike l]
      have h2 : ((groupedItem f rest) :: l.filter (fun s => !isUrlLike s)).filter
          (fun s => !isUrlLike s) = l.filter (fun s => !isUrlLike s) := by
        simp [List.filter_cons, hg, filter_not_idem_urlLike l]
      rw [group_sources_eq_cons_case _ (groupedItem f rest) [] h1, h2]
      have : groupedItem (groupedItem f rest) [] = groupedItem f rest := by
        rw [groupedItem, groupedItem]
        simp [joinedContent, hft, intercalate_singleton]
      rw [this]

/-! ## Python `int(...)` parsing and Playwright `nth` (`core/audio.py`) -/

/-- Accumulate decimal digits into a natural number. -/
def digitsToNat (cs : List Char) : Nat :=
  cs.foldl (fun n c => 10 * n + (c.toNat - 48)) 0

/-- After a leading digit: further digits, with single underscores allowed
only between digits (CPython numeric-literal rule). -/
def pyDigitsRest : List Char → Option (List Char)
  | [] => some []
  | c :: rest =>
      if c == '_' then
        match rest with
        | d :: rest2 =>
            if d.isDigit then (pyDigitsRest rest2).map (fun l => d :: l) else none
        | [] => none
      else if c.isDigit then (pyDigitsRest rest).map (fun l => c :: l)
      else none

/-- A nonempty digit run starting with a digit. -/
def pyDigits : List Char → Option (List Char)
  | [] => none
  | c :: rest =>
      if c.isDigit then (pyDigitsRest rest).map (fun l => c :: l) else none

/-- Model of Python `int(s)` on a decimal string: surrounding whitespace is
stripped, an optional sign is consumed, and the rest must be a digit run;
any other shape raises `ValueError`, modelled as `none`. -/
def pyParseInt (s : String) : Option Int :=
  let cs := ((s.data.dropWhile Char.isWhitespace).reverse.dropWhile
    Char.isWhitespace).reverse
  match cs with
  | '+' :: rest => (pyDigits rest).map (fun ds => (digitsToNat ds : Int))
  | '-' :: rest => (pyDigits rest).map (fun ds => -(digitsToNat ds : Int))
  | rest => (pyDigits rest).map (fun ds => (digitsToNat ds : Int))

/-- Playwright `locator.nth(i)`: a 0-based index selects that element, `-1`
selects the last one, and any other negative index matches nothing. -/
def locatorNth (l : List α) (i : Int) : Option α :=
  if i = -1 then l.getLast?
  else if 0 ≤ i then l[i.toNat]?
  else none

/-! ## `AudioManager.get_status` -/

/-- One artifact list entry as `get_status` observes it: its inner text, the
title extracted by `_get_item_title` (absence tolerated), and visibility of
the play-arrow icon locator. -/
structure ArtifactItem where
  text_content : String
  title : Option String
  playIconVisible : Bool
deriving DecidableEq, Repr

/-- The page as `get_status` reads it after tab normalization, plus the two
localized strings it looks up. -/
structure StatusEnv where
  artifacts : List ArtifactItem
  generating_text : String
  error_text : String
deriving DecidableEq, Repr

/-- The dictionary returned by `get_status` (the `error` and `title` keys are
each present on some paths only). -/
structure StatusResult where
  status : String
  error : Option String
  title : Option String
deriving DecidableEq, Repr

/-- Embedding of `AudioManager.get_status`.  The `int(job_id) - 1` index is
only checked from above (`count <= index`); `nth` is then applied to the
possibly negative index, and `inner_text` on a locator that matches nothing
raises a timeout, modelled as `Except.error`. -/
def get_status (env : StatusEnv) (job_id : String) : Except String StatusResult :=
  match pyParseInt job_id with
  | none => Except.ok ⟨"unknown", some "Invalid job_id format", none⟩
  | some n =>
      let index : Int := n - 1
      let count : Int := env.artifacts.length
      if count ≤ index then Except.ok ⟨"unknown", some "Job ID not found", none⟩
      else
        match locatorNth env.artifacts index with
        | none => Except.error "TimeoutError: waiting for nth artifact item"
        | some item =>
            let t := item.text_content
            if pyIn "sync" t || pyIn env.generating_text t then
              Except.ok ⟨"generating", none, item.title⟩
            else if pyIn "play_arrow" t || item.playIconVisible then
              Except.ok ⟨"completed", none, item.title⟩
            else if pyIn "error" t.toLower || pyIn env.error_text t.toLower then
              Except.ok ⟨"failed", none, item.title⟩
            else Except.ok ⟨"unknown", none, item.title⟩

deriving instance DecidableEq for Except

/-- A page with exactly one, completed artifact. -/
def statusBugEnv : StatusEnv :=
  ⟨[⟨"play_arrow Ready", some "Episode", true⟩], "Generating", "Error"⟩

/-- C2 (code bug): for `job_id = "0"` the index is `-1`, the `count <= index`
guard does not catch it, and `nth(-1)` selects the LAST artifact, so the call
reports that artifact's status (`completed`) instead of `unknown`; on an
empty artifact list the same path raises a timeout instead of returning. -/
theorem get_status_zero_job_id_reads_last_item :
    get_status statusBugEnv "0" =
      Except.ok ⟨"completed", none, some "Episode"⟩ ∧
    get_status statusBugEnv "0" ≠
      Except.ok ⟨"unknown", some "Job ID not found", none⟩ ∧
    get_status ⟨[], "Generating", "Error"⟩ "0" =
      Except.error "TimeoutError: waiting for nth artifact item" := by
  refine ⟨by decide, by decide, by decide⟩

/-! ## `AudioManager.generate` -/

/-- A locator probe: whether it matched (`count() > 0`) and is visible. -/
structure Ctl where
  present : Bool
  visible : Bool
deriving DecidableEq, Repr

/-- Python truthiness of an `Optional[str]` option (`if style:`): `None` and
the empty string are both falsy. -/
def truthy : Option String → Bool
  | none => false
  | some s => !s.isEmpty

/-- The keyword arguments of `generate`. -/
structure GenOptions where
  style : Option String := none
  prompt : Option String := none
  language : Option String := none
  duration : Option String := none

/-- The page as `generate` interacts with it (after tab normalization):
localized-text lookup, visibility of each control it probes, whether the two
awaited selectors appear, and the artifact count read after the settle
pause.  Filling the prompt textarea has no effect on the returned value, so
its two probes are recorded but unused. -/
structure GenEnv where
  texts : String → String
  editIconVisible : Bool
  editBtnVisible : Bool
  dialogAppears : Bool
  styleButton : String → Ctl
  selectTriggerVisible : Bool
  matOptionAppears : Bool
  langOptionVisible : Bool
  durationButton : String → Ctl
  promptPlaceholderVisible : Bool
  dialogTextareaVisible : Bool
  generateBtnVisible : Bool
  fallbackSubmitClickOk : Bool
  artifactCountAfter : Nat

/-- Return value of the embedded `generate`: the job id or the raised error,
plus the warnings logged on the way. -/
structure GenResult where
  outcome : Except String String
  warnings : List String
deriving DecidableEq, Repr

/-- Embedding of `AudioManager.generate`: open the options dialog, apply
style (hard failure when its radio control is missing), language (waiting for
options to render can time out), duration (soft: log and proceed), prompt
(fill only), submit, wait out the settle pause and return the artifact count
as a string. -/
def generate (env : GenEnv) (opts : GenOptions) : GenResult :=
  if !env.editIconVisible && !env.editBtnVisible then
    ⟨Except.error "Could not find Edit/Pencil icon for Audio Overview", []⟩
  else if !env.dialogAppears then
    ⟨Except.error "TimeoutError: mat-dialog-container did not appear", []⟩
  else
    let s := opts.style.getD ""
    let styleBtn := env.styleButton (env.texts (s ++ "_radio_button"))
    if truthy opts.style && !(styleBtn.present && styleBtn.visible) then
      ⟨Except.error ("Could not find " ++ s ++ " radio button for Audio Overview"), []⟩
    else
        if truthy opts.language && env.selectTriggerVisible && !env.matOptionAppears then
          ⟨Except.error "TimeoutError: mat-option did not appear", []⟩
        else
          let warnings :=
            if truthy opts.duration then
              let d := opts.duration.getD ""
              let dtext := env.texts ("duration_" ++ d)
              if dtext.isEmpty then []
              else
                let b := env.durationButton dtext
                if b.present && b.visible then []
                else ["Could not find duration button: " ++ d]
            else []
          if !env.generateBtnVisible && !env.fallbackSubmitClickOk then
            ⟨Except.error "TimeoutError: clicking the generate button", warnings⟩
          else ⟨Except.ok (toString env.artifactCountAfter), warnings⟩

/-- C3: whenever `generate` returns normally, the job identifier it returns
is the string form of the artifact-item count read after submission settles,
for every environment and every combination of options. -/
theorem generate_returns_artifact_count (env : GenEnv) (opts : GenOptions)
    (j : String) (h : (generate env opts).outcome = Except.ok j) :
    j = toString env.artifactCountAfter := by
  simp only [generate] at h
  split_ifs at h <;> simp_all

/-- An environment where every control is found and three artifacts are
listed after submission. -/
def genEnvW : GenEnv :=
  { texts := fun _ => "X", editIconVisible := true, editBtnVisible := false,
    dialogAppears := true, styleButton := fun _ => ⟨true, true⟩,
    selectTriggerVisible := false, matOptionAppears := false,
    langOptionVisible := true, durationButton := fun _ => ⟨true, true⟩,
    promptPlaceholderVisible := true, dialogTextareaVisible := true,
    generateBtnVisible := true, fallbackSubmitClickOk := true,
    artifactCountAfter := 3 }

/-- C3 witness: the scenario `style="deep_dive"`, no prompt/language/duration,
on the all-controls-found page. -/
theorem generate_returns_artifact_count_witness :
    (generate genEnvW { style := some "deep_dive" }).outcome = Except.ok "3" ∧
    "3" = toString genEnvW.artifactCountAfter :=
  ⟨by decide,
   generate_returns_artifact_count genEnvW { style := some "deep_dive" } "3" (by decide)⟩

/-- C8: with the dialog reachable, a requested style whose radio control is
not found makes `generate` raise, while a requested duration whose toggle is
not found only logs a warning and still submits, returning the job id. -/
theorem generate_style_hard_duration_soft (env : GenEnv) (opts : GenOptions)
    (hedit : env.editIconVisible = true) (hdialog : env.dialogAppears = true) :
    (∀ s, opts.style = some s → s.isEmpty = false →
        ((env.styleButton (env.texts (s ++ "_radio_button"))).present &&
          (env.styleButton (env.texts (s ++ "_radio_button"))).visible) = false →
        (generate env opts).outcome =
          Except.error ("Could not find " ++ s ++ " radio button for Audio Overview")) ∧
    (∀ d, truthy opts.style = false → truthy opts.language = false →
        opts.duration = some d → d.isEmpty = false →
        (env.texts ("duration_" ++ d)).isEmpty = false →
        ((env.durationButton (env.texts ("duration_" ++ d))).present &&
          (env.durationButton (env.texts ("duration_" ++ d))).visible) = false →
        env.generateBtnVisible = true →
        (generate env opts).warnings = ["Could not find duration button: " ++ d] ∧
        (generate env opts).outcome = Except.ok (toString env.artifactCountAfter)) := by
  constructor
  · intro s hs hse hbtn
    simp only [generate]
    rw [if_neg (by simp [hedit]), if_neg (by simp [hdialog]),
      if_pos (by rw [hs]; simp [truthy, hse, hbtn])]
    simp [hs]
  · intro d hstyle hlang hd hde hdt hbtn hgen
    simp only [generate]
    rw [if_neg (by simp [hedit]), if_neg (by simp [hdialog]),
      if_neg (by simp [hstyle]), if_neg (by simp [hlang]),
      if_neg (by simp [hgen])]
    constructor
    · simp [hd, truthy, hde, hdt, hbtn]
    · rfl

/-- C8 witness: a requested style with its radio missing raises; a requested
duration with its toggle missing warns and still returns the count. -/
theorem generate_style_hard_duration_soft_witness :
    (generate { genEnvW with styleButton := fun _ => ⟨false, false⟩ }
        { style := some "deep_dive" }).outcome =
      Except.error ("Could not find " ++ "deep_dive" ++ " radio button for Audio Overview") ∧
    ((generate { genEnvW with durationButton := fun _ => ⟨false, false⟩ }
        { duration := some "short" }).warnings =
          ["Could not find duration button: " ++ "short"] ∧
      (generate { genEnvW with durationButton := fun _ => ⟨false, false⟩ }
        { duration := some "short" }).outcome =
          Except.ok (toString
            ({ genEnvW with durationButton := fun _ => ⟨false, false⟩ } : GenEnv).artifactCountAfter)) :=
  ⟨(generate_style_hard_duration_soft _ _ (by rfl) (by rfl)).1 "deep_dive" rfl (by rfl) (by rfl),
   (generate_style_hard_duration_soft _ _ (by rfl) (by rfl)).2 "short"
     (by rfl) (by rfl) rfl (by rfl) (by rfl) (by rfl) (by rfl)⟩

/-! ## `AudioManager.get_download_url` -/

/-- An outgoing network request as the route interceptor sees it. -/
structure MediaRequest where
  resource_type : String
  url : String
deriving DecidableEq, Repr

/-- What the interceptor does to one request. -/
inductive RouteAction
  | aborted
  | continued
deriving DecidableEq, Repr

/-- Embedding of the closure `route_handler`: capture and abort the first
media request, continue everything else (the `captured_url` cell threads
through). -/
def route_handler (captured : Option String) (req : MediaRequest) :
    Option String × RouteAction :=
  match captured with
  | none =>
      if req.resource_type == "media" then (some req.url, RouteAction.aborted)
      else (none, RouteAction.continued)
  | some u => (some u, RouteAction.continued)

/-- Run the installed handler over the stream of requests seen while the
route is active, in order. -/
def processRequests (captured : Option String) :
    List MediaRequest → Option String × List RouteAction
  | [] => (captured, [])
  | r :: rs =>
      let step := route_handler captured r
      let rest := processRequests step.1 rs
      (rest.1, step.2 :: rest.2)

/-- The page as `get_download_url` interacts with it: the artifact count, the
play-button probe, whether clicking play succeeds, and the requests flowing
while the route is installed. -/
structure DlUrlEnv where
  itemsCount : Nat
  playBtnVisible : Bool
  clickOk : Bool
  requests : List MediaRequest
  closePlayerVisible : Bool
deriving DecidableEq, Repr

/-- Result of the embedded `get_download_url`: the returned value, whether
the route interceptor is still installed when the call returns, and the
action the handler took on each request. -/
structure DlUrlOutcome where
  result : Option String
  routeInstalled : Bool
  actions : List RouteAction
deriving DecidableEq, Repr

/-- Embedding of `AudioManager.get_download_url`.  The `route(pattern,
handler)` install and the busy-poll sit inside a `try` whose `finally`
removes the route, so `routeInstalled` is false on every exit path; the
returned URL is whatever the handler captured (Python truthiness: an empty
captured string is treated as a failure to capture). -/
def get_download_url (env : DlUrlEnv) (job_id : String) : DlUrlOutcome :=
  match pyParseInt job_id with
  | none => ⟨none, false, []⟩
  | some n =>
      let index : Int := n - 1
      if index < 0 || (env.itemsCount : Int) ≤ index then ⟨none, false, []⟩
      else if !env.playBtnVisible then ⟨none, false, []⟩
      else if !env.clickOk then ⟨none, false, []⟩
      else
        let run := processRequests none env.requests
        match run.1 with
        | some u => if u.isEmpty then ⟨none, false, run.2⟩ else ⟨some u, false, run.2⟩
        | none => ⟨none, false, run.2⟩

theorem processRequests_cons (c : Option String) (r : MediaRequest)
    (rs : List MediaRequest) :
    processRequests c (r :: rs) =
      ((processRequests (route_handler c r).1 rs).1,
        (route_handler c r).2 :: (processRequests (route_handler c r).1 rs).2) := rfl

theorem processRequests_no_media (rs : List MediaRequest)
    (h : ∀ q ∈ rs, q.resource_type ≠ "media") :
    processRequests none rs = (none, rs.map (fun _ => RouteAction.continued)) := by
  induction rs with
  | nil => rfl
  | cons r rest ih =>
      have hr : (r.resource_type == "media") = false := by
        simpa using h r (List.mem_cons_self _ _)
      simp [processRequests_cons, route_handler, hr,
        ih (fun q hq => h q (List.mem_cons_of_mem _ hq))]

theorem processRequests_captured (rs : List MediaRequest) (u : String) :
    processRequests (some u) rs = (some u, rs.map (fun _ => RouteAction.continued)) := by
  induction rs with
  | nil => rfl
  | cons r rest ih => simp [processRequests_cons, route_handler, ih]

theorem processRequests_first_media (pre : List MediaRequest) (m : MediaRequest)
    (post : List MediaRequest) (hpre : ∀ q ∈ pre, q.resource_type ≠ "media")
    (hm : m.resource_type = "media") :
    processRequests none (pre ++ m :: post) =
      (some m.url,
        pre.map (fun _ => RouteAction.continued) ++
          RouteAction.aborted :: post.map (fun _ => RouteAction.continued)) := by
  induction pre with
  | nil =>
      simp [processRequests_cons, route_handler, hm, processRequests_captured]
  | cons r rest ih =>
      have hr : (r.resource_type == "media") = false := by
        simpa using hpre r (List.mem_cons_self _ _)
      simp only [List.cons_append]
      simp [processRequests_cons, route_handler, hr,
        ih (fun q hq => hpre q (List.mem_cons_of_mem _ hq))]

theorem processRequests_fst_eq_find (rs : List MediaRequest) :
    (processRequests none rs).1 =
      (rs.find? (fun q => q.resource_type == "media")).map MediaRequest.url := by
  induction rs with
  | nil => rfl
  | cons r rest ih =>
      by_cases hr : (r.resource_type == "media") = true
      · simp [processRequests_cons, route_handler, hr, processRequests_captured,
          List.find?_cons_of_pos _ hr]
      · have hr2 : (r.resource_type == "media") = false := by simpa using hr
        simp [processRequests_cons, route_handler, hr2,
          List.find?_cons, ih]

/-- C4: the route interceptor is never left installed when
`get_download_url` returns; with a valid in-range job id, a visible play
control and a successful click, the returned value is the URL of the first
media-classified request (absence when none arrives), and the handler aborts
exactly that first media request while continuing every other request. -/
theorem get_download_url_capture_and_cleanup :
    (∀ (env : DlUrlEnv) (job_id : String),
        (get_download_url env job_id).routeInstalled = false) ∧
    (∀ (env : DlUrlEnv) (job_id : String) (n : Int), pyParseInt job_id = some n →
        (0 : Int) ≤ n - 1 → n - 1 < (env.itemsCount : Int) →
        env.playBtnVisible = true → env.clickOk = true →
        (∀ q ∈ env.requests, q.url.isEmpty = false) →
        (get_download_url env job_id).result =
          (env.requests.find? (fun q => q.resource_type == "media")).map
            MediaRequest.url ∧
        (get_download_url env job_id).actions =
          (processRequests none env.requests).2) ∧
    (∀ pre (m : MediaRequest) post, (∀ q ∈ pre, q.resource_type ≠ "media") →
        m.resource_type = "media" →
        processRequests none (pre ++ m :: post) =
          (some m.url,
            pre.map (fun _ => RouteAction.continued) ++
              RouteAction.aborted :: post.map (fun _ => RouteAction.continued))) := by
  refine ⟨?_, ?_, processRequests_first_media⟩
  · intro env job_id
    cases hp : pyParseInt job_id with
    | none => simp [get_download_url, hp]
    | some n =>
        simp only [get_download_url, hp]
        split_ifs <;> try rfl
        cases hrun : (processRequests none env.requests).1 with
        | none => simp [hrun]
        | some u => simp only [hrun]; split_ifs <;> rfl
  · intro env job_id n hp h0 hlt hplay hclick hurl
    have hc1 : ¬ (n - 1 < 0) := by omega
    have hc2 : ¬ ((env.itemsCount : Int) ≤ n - 1) := by omega
    cases hf : env.requests.find? (fun q => q.resource_type == "media") with
    | none =>
        have h1 : (processRequests none env.requests).1 = none := by
          rw [processRequests_fst_eq_find, hf]; rfl
        constructor <;>
          simp [get_download_url, hp, hc1, hc2, hplay, hclick, h1, hf]
    | some q =>
        have h1 : (processRequests none env.requests).1 = some q.url := by
          rw [processRequests_fst_eq_find, hf]; rfl
        have hq : q.url.isEmpty = false :=
          hurl q (List.mem_of_find?_eq_some hf)
        constructor <;>
          simp [get_download_url, hp, hc1, hc2, hplay, hclick, h1, hq, hf]

/-- A page with two artifacts where clicking play emits a script request,
then two media requests. -/
def dlUrlEnvW : DlUrlEnv :=
  ⟨2, true, true,
    [⟨"script", "https://x.example/app.js"⟩,
     ⟨"media", "https://m.example/audio.mp3"⟩,
     ⟨"media", "https://m2.example/a.mp3"⟩], true⟩

/-- C4 witness: on the concrete page, no residual interceptor, the first
media URL is returned, and the action trace is continue/abort/continue. -/
theorem get_download_url_capture_and_cleanup_witness :
    (get_download_url dlUrlEnvW "1").routeInstalled = false ∧
    (get_download_url dlUrlEnvW "1").result =
      (dlUrlEnvW.requests.find? (fun q => q.resource_type == "media")).map
        MediaRequest.url ∧
    processRequests none
        ([(⟨"script", "https://x.example/app.js"⟩ : MediaRequest)] ++
          (⟨"media", "https://m.example/audio.mp3"⟩ : MediaRequest) ::
            [(⟨"media", "https://m2.example/a.mp3"⟩ : MediaRequest)]) =
      (some "https://m.example/audio.mp3",
        [(⟨"script", "https://x.example/app.js"⟩ : MediaRequest)].map
            (fun _ => RouteAction.continued) ++
          RouteAction.aborted ::
            [(⟨"media", "https://m2.example/a.mp3"⟩ : MediaRequest)].map
              (fun _ => RouteAction.continued)) :=
  ⟨get_download_url_capture_and_cleanup.1 dlUrlEnvW "1",
   (get_download_url_capture_and_cleanup.2.1 dlUrlEnvW "1" 1 (by decide)
     (by decide) (by decide) rfl rfl (by decide)).1,
   get_download_url_capture_and_cleanup.2.2 _ _ _ (by decide) rfl⟩

/-! ## `AudioManager.download_file` -/

/-- `os.path.basename` for the forward-slash paths used here. -/
def pyBasename (p : String) : String :=
  (p.splitOn "/").getLastD p

/-- The environment of `download_file`: whether the `_ensure_studio_tab()`
prelude succeeds (its `count()`/`click()` calls are unguarded and run BEFORE
the `try:`, so a raise there escapes the operation), the download directory
and its snapshot taken before clicking (its own guard already applied), the
artifact list, the menu probes, the directory listing seen at each poll
iteration within the bounded timeout (`none` models a raising `os.listdir`,
caught and logged inside the loop), and the filesystem collaborators. -/
structure DlFileEnv where
  ensureStudioOk : Bool
  downloadDir : String
  files_before : List String
  artifactsCount : Nat
  moreBtnVisible : Bool
  downloadMenuVisible : Bool
  menuClickOk : Bool
  polls : List (Option (List String))
  isFile : String → Bool
  size : String → Nat
  readFile : String → Option (List Nat)
  removeOk : String → Bool

/-- Python `str.startswith`, via the character list so that it computes by
kernel reduction. -/
def strStartsWith (s pre : String) : Bool :=
  List.isPrefixOf pre.data s.data

/-- Python `str.endswith`, via the character list. -/
def strEndsWith (s suf : String) : Bool :=
  List.isPrefixOf suf.data.reverse s.data.reverse

/-- One poll-loop body: among the files not in the snapshot, take the first
that is not a partial download, not hidden, a real file and non-empty
(Python iterates a set difference; its order is modelled as listing order),
returning its joined path. -/
def pickNewFile (env : DlFileEnv) (listing : List String) : Option String :=
  ((listing.filter (fun f => !env.files_before.contains f)).find? (fun f =>
      !strEndsWith f ".crdownload" && !strStartsWith f "." &&
      env.isFile (env.downloadDir ++ "/" ++ f) &&
      decide (0 < env.size (env.downloadDir ++ "/" ++ f)))).map
    (fun f => env.downloadDir ++ "/" ++ f)

/-- The bounded busy-poll: stop at the first iteration that yields a new
valid file; a raising `os.listdir` iteration is skipped. -/
def pollLoop (env : DlFileEnv) : List (Option (List String)) → Option String
  | [] => none
  | p :: rest =>
      match p with
      | none => pollLoop env rest
      | some listing =>
          match pickNewFile env listing with
          | some path => some path
          | none => pollLoop env rest

/-- What `download_file` produced and which files it removed from the
download directory. -/
structure DlFileOutcome where
  result : Option (List Nat × String × Nat)
  deleted : List String
deriving DecidableEq, Repr

/-- The body of the big `try:` in `download_file` (after the guarded job-id
parse and snapshot): raising collaborator calls become `Except.error`
carrying the files deleted so far; guarded steps return absence directly. -/
def download_file_body (env : DlFileEnv) (job_id : String) :
    Except (String × List String) DlFileOutcome :=
  match pyParseInt job_id with
  | none => Except.ok ⟨none, []⟩
  | some n =>
      let index : Int := n - 1
      if index < 0 || (env.artifactsCount : Int) ≤ index then Except.ok ⟨none, []⟩
      else if !env.moreBtnVisible then Except.ok ⟨none, []⟩
      else if !env.downloadMenuVisible then Except.ok ⟨none, []⟩
      else if !env.menuClickOk then Except.error ("download menu click failed", [])
      else
        match pollLoop env env.polls with
        | none => Except.ok ⟨none, []⟩
        | some path =>
            match env.readFile path with
            | none => Except.error ("failed to read downloaded file", [])
            | some body =>
                Except.ok ⟨some (body, pyBasename path, env.size path),
                  if env.removeOk path then [path] else []⟩

/-- The guarded region of `download_file` (job-id parse with its own guard,
snapshot, then the big `try:`): the outer `except Exception` turns any raise
into an absence result, keeping whatever deletions had happened, so this part
always returns a value. -/
def download_file_caught (env : DlFileEnv) (job_id : String) : DlFileOutcome :=
  match download_file_body env job_id with
  | Except.ok r => r
  | Except.error (_, d) => ⟨none, d⟩

/-- Embedding of the full `download_file` operation: the
`_ensure_studio_tab()` prelude runs first, outside every guard, so its
failure raises out of the operation; everything after it is the caught
region. -/
def download_file (env : DlFileEnv) (job_id : String) :
    Except String DlFileOutcome :=
  if !env.ensureStudioOk then
    Except.error "TimeoutError: switching to the Studio tab"
  else Except.ok (download_file_caught env job_id)

/-- The per-file failure disjunction of the poll loop: already present
before the click, a partial download, hidden, not a regular file, or empty. -/
def staleFile (env : DlFileEnv) (f : String) : Prop :=
  f ∈ env.files_before ∨ strEndsWith f ".crdownload" = true ∨
    strStartsWith f "." = true ∨ env.isFile (env.downloadDir ++ "/" ++ f) = false ∨
    env.size (env.downloadDir ++ "/" ++ f) = 0

instance (env : DlFileEnv) (f : String) : Decidable (staleFile env f) := by
  unfold staleFile; infer_instance

theorem pickNewFile_eq_none (env : DlFileEnv) (listing : List String)
    (h : ∀ f ∈ listing, staleFile env f) : pickNewFile env listing = none := by
  have hfind : (listing.filter (fun f => !env.files_before.contains f)).find?
      (fun f => !strEndsWith f ".crdownload" && !strStartsWith f "." &&
        env.isFile (env.downloadDir ++ "/" ++ f) &&
        decide (0 < env.size (env.downloadDir ++ "/" ++ f))) = none := by
    apply List.find?_eq_none.mpr
    intro f hf
    obtain ⟨hmem, hnb⟩ := List.mem_filter.mp hf
    have hout : f ∉ env.files_before := by
      intro hc
      simp [List.contains, hc] at hnb
    rcases h f hmem with hc | hc | hc | hc | hc
    · exact absurd hc hout
    all_goals simp [hc]
  unfold pickNewFile
  rw [hfind]
  rfl

theorem pollLoop_eq_none (env : DlFileEnv) (polls : List (Option (List String)))
    (h : ∀ p ∈ polls, ∀ f ∈ p.getD [], staleFile env f) :
    pollLoop env polls = none := by
  induction polls with
  | nil => rfl
  | cons p rest ih =>
      have hrest := ih (fun q hq f hf => h q (List.mem_cons_of_mem _ hq) f hf)
      cases p with
      | none => simpa [pollLoop] using hrest
      | some listing =>
          have hpick : pickNewFile env listing = none :=
            pickNewFile_eq_none env listing
              (fun f hf => h (some listing) (List.mem_cons_self _ _) f hf)
          simpa [pollLoop, hpick] using hrest

/-- A download directory where no valid new file ever appears: each poll
sees only the snapshot file or a hidden partial file; the tab prelude
succeeds. -/
def dlFileEnvW : DlFileEnv :=
  { ensureStudioOk := true,
    downloadDir := "/tmp/shared-downloads", files_before := ["old.mp3"],
    artifactsCount := 1, moreBtnVisible := true, downloadMenuVisible := true,
    menuClickOk := true,
    polls := [some ["old.mp3"], some ["old.mp3", ".part"], none],
    isFile := fun _ => true, size := fun _ => 5,
    readFile := fun _ => some [1, 2], removeOk := fun _ => true }

/-- C5 (counterexample): `_ensure_studio_tab()` is called before the `try:`
whose `except Exception` implements the absence contract, and its
`count()`/`click()` calls are unguarded; when that prelude raises, the
exception escapes `download_file` instead of becoming an absence result, so
the operation does not "never raise for every environment". -/
theorem download_file_studio_tab_raise_counterexample :
    download_file { dlFileEnvW with ensureStudioOk := false } "1" =
      Except.error "TimeoutError: switching to the Studio tab" := rfl

/-- C5 (amended): once past the tab-normalization prelude (the one unguarded
step, which runs before the `try:`), `download_file` never raises: the
guarded region always returns a value, the outer catch converts every raise
inside it into an absence result, whenever the result is absent nothing was
deleted from the download directory, and on the timeout path (every poll
sees only stale files) the call returns absence and deletes nothing. -/
theorem download_file_absence_and_no_delete :
    (∀ (env : DlFileEnv) (job_id : String), env.ensureStudioOk = true →
        download_file env job_id = Except.ok (download_file_caught env job_id)) ∧
    (∀ (env : DlFileEnv) (job_id : String) (e : String) (d : List String),
        download_file_body env job_id = Except.error (e, d) →
        download_file_caught env job_id = ⟨none, d⟩) ∧
    (∀ (env : DlFileEnv) (job_id : String),
        (download_file_caught env job_id).result = none →
        (download_file_caught env job_id).deleted = []) ∧
    (∀ (env : DlFileEnv) (job_id : String),
        (∀ p ∈ env.polls, ∀ f ∈ p.getD [], staleFile env f) →
        (download_file_caught env job_id).result = none ∧
        (download_file_caught env job_id).deleted = []) := by
  refine ⟨?_, ?_, ?_, ?_⟩
  · intro env job_id h
    simp [download_file, h]
  · intro env job_id e d h
    simp [download_file_caught, h]
  · intro env job_id
    cases hp : pyParseInt job_id with
    | none => intro _; simp [download_file_caught, download_file_body, hp]
    | some n =>
        simp only [download_file_caught, download_file_body, hp]
        split_ifs <;> try (intro _; rfl)
        cases hl : pollLoop env env.polls with
        | none => intro _; simp
        | some path =>
            cases hr : env.readFile path with
            | none => intro _; simp [hr]
            | some body => intro h; simp [hr] at h
  · intro env job_id hstale
    have hl : pollLoop env env.polls = none := pollLoop_eq_none env env.polls hstale
    cases hp : pyParseInt job_id with
    | none => constructor <;> simp [download_file_caught, download_file_body, hp]
    | some n =>
        simp only [download_file_caught, download_file_body, hp]
        split_ifs <;> simp [hl]

/-- C5 witness: with the prelude succeeding, the operation returns normally,
and the timeout scenario on the concrete directory yields absence with
nothing deleted. -/
theorem download_file_absence_and_no_delete_witness :
    download_file dlFileEnvW "1" = Except.ok (download_file_caught dlFileEnvW "1") ∧
    (download_file_caught dlFileEnvW "1").result = none ∧
    (download_file_caught dlFileEnvW "1").deleted = [] :=
  ⟨download_file_absence_and_no_delete.1 dlFileEnvW "1" rfl,
   download_file_absence_and_no_delete.2.2.2 dlFileEnvW "1" (by decide)⟩

/-! ## `SourceManager.clear_sources` and `AudioManager.clear_studio` -/

/-- What iteration `k` of the `clear_sources` loop observes: the source-item
count and the outcome of each staged control lookup / click (a failed lookup
logs and breaks; a raising click is caught by the per-iteration `except` and
breaks). -/
structure SrcIter where
  itemsCount : Nat
  moreBtnFound : Bool
  moreClickOk : Bool
  menuItemFound : Bool
  menuClickOk : Bool
  confirmFound : Bool
  confirmClickOk : Bool
  detachOk : Bool
deriving DecidableEq, Repr

/-- One `clear_sources` iteration runs to its `removed += 1` line exactly
when every staged check passes; each `false` branch is one of the `break`
paths of the loop body (the detach wait is logged only and never breaks). -/
def srcIterCompletes (it : SrcIter) : Bool :=
  if it.itemsCount = 0 then false
  else if !it.moreBtnFound then false
  else if !it.moreClickOk then false
  else if !it.menuItemFound then false
  else if !it.menuClickOk then false
  else if !it.confirmFound then false
  else if !it.confirmClickOk then false
  else true

/-- A loop of at most `fuel` iterations starting at iteration `k`: the
number of consecutive completing iterations, capped by the fuel. -/
def boundedCount (p : Nat → Bool) : Nat → Nat → Nat
  | _, 0 => 0
  | k, fuel + 1 => if p k then boundedCount p (k + 1) fuel + 1 else 0

/-- The dictionary returned by the two bulk-deletion operations (only
`clear_studio` ever sets `message`). -/
structure ClearResult where
  success : Bool
  count : Nat
  message : Option String
deriving DecidableEq, Repr

/-- Embedding of `clear_sources`: `max_attempts = 200` iterations, `removed`
counts the iterations whose deletion click sequence completed, and the
result is `{success: removed > 0, count: removed}`. -/
def clear_sources (env : Nat → SrcIter) : ClearResult :=
  let removed := boundedCount (fun k => srcIterCompletes (env k)) 0 200
  ⟨decide (0 < removed), removed, none⟩

/-- What iteration `k` of the `clear_studio` loop observes.  The confirm
click and detach wait sit in a `try` whose failure is only logged, so
`removed` still increments once the confirm control was found. -/
structure StudioIter where
  itemsCount : Nat
  moreBtnFound : Bool
  moreClickOk : Bool
  deleteMenuFound : Bool
  confirmFound : Bool
  confirmSeqOk : Bool
deriving DecidableEq, Repr

/-- The page for `clear_studio`: whether the artifact-library container is
present at all, and the per-iteration observations. -/
structure StudioEnv where
  parentPresent : Bool
  iters : Nat → StudioIter

/-- One `clear_studio` iteration reaches its `removed += 1` line exactly
when the item exists and the menu, delete entry and confirm control are all
found (each `false` branch is a `break`; the guarded confirm click cannot
break). -/
def studioIterCompletes (it : StudioIter) : Bool :=
  if it.itemsCount = 0 then false
  else if !it.moreBtnFound then false
  else if !it.moreClickOk then false
  else if !it.deleteMenuFound then false
  else if !it.confirmFound then false
  else true

/-- Embedding of `clear_studio`: early result when the artifact library is
absent, otherwise the same bounded loop pattern with `max_attempts = 200`. -/
def clear_studio_op (env : StudioEnv) : ClearResult :=
  if !env.parentPresent then ⟨false, 0, some "No generated items found"⟩
  else
    let removed := boundedCount (fun k => studioIterCompletes (env.iters k)) 0 200
    ⟨decide (0 < removed), removed, none⟩

theorem boundedCount_le (p : Nat → Bool) (k fuel : Nat) :
    boundedCount p k fuel ≤ fuel := by
  induction fuel generalizing k with
  | zero => exact Nat.le_refl 0
  | succ fuel ih =>
      simp only [boundedCount]
      split
      · exact Nat.succ_le_succ (ih (k + 1))
      · exact Nat.zero_le _

theorem boundedCount_spec (p : Nat → Bool) (k fuel : Nat) :
    (∀ j < boundedCount p k fuel, p (k + j) = true) ∧
    (boundedCount p k fuel < fuel → p (k + boundedCount p k fuel) = false) := by
  induction fuel generalizing k with
  | zero => exact ⟨fun j hj => absurd hj (Nat.not_lt_zero j), fun h => absurd h (Nat.lt_irrefl 0)⟩
  | succ fuel ih =>
      simp only [boundedCount]
      by_cases hp : p k = true
      · rw [if_pos hp]
        obtain ⟨ih1, ih2⟩ := ih (k + 1)
        constructor
        · intro j hj
          cases j with
          | zero => simpa using hp
          | succ j =>
              have := ih1 j (Nat.lt_of_succ_lt_succ hj)
              simpa [Nat.add_comm, Nat.add_assoc, Nat.add_left_comm] using this
        · intro hlt
          have := ih2 (Nat.lt_of_succ_lt_succ hlt)
          simpa [Nat.add_comm, Nat.add_assoc, Nat.add_left_comm] using this
      · rw [if_neg hp]
        exact ⟨fun j hj => absurd hj (Nat.not_lt_zero j),
          fun _ => by simpa [Bool.not_eq_true] using hp⟩

/-- C7: both bulk-deletion loops stop within the fixed 200-iteration bound
even if deletion never converges: the reported count is at most 200, equals
the number of consecutive iterations whose deletion click sequence
completed, `success` is exactly `count > 0`, and `clear_studio` reports a
failure result when the artifact library is absent. -/
theorem clear_ops_bounded_count (envS : Nat → SrcIter) (envA : StudioEnv) :
    ((clear_sources envS).count ≤ 200 ∧
      (clear_sources envS).success = decide (0 < (clear_sources envS).count) ∧
      (∀ j < (clear_sources envS).count, srcIterCompletes (envS j) = true) ∧
      ((clear_sources envS).count < 200 →
        srcIterCompletes (envS (clear_sources envS).count) = false)) ∧
    (envA.parentPresent = false →
      clear_studio_op envA = ⟨false, 0, some "No generated items found"⟩) ∧
    (envA.parentPresent = true →
      (clear_studio_op envA).count ≤ 200 ∧
      (clear_studio_op envA).success = decide (0 < (clear_studio_op envA).count) ∧
      (∀ j < (clear_studio_op envA).count, studioIterCompletes (envA.iters j) = true) ∧
      ((clear_studio_op envA).count < 200 →
        studioIterCompletes (envA.iters (clear_studio_op envA).count) = false)) := by
  have hsc : (clear_sources envS).count =
      boundedCount (fun k => srcIterCompletes (envS k)) 0 200 := rfl
  have hac : envA.parentPresent = true → (clear_studio_op envA).count =
      boundedCount (fun k => studioIterCompletes (envA.iters k)) 0 200 := by
    intro h; simp [clear_studio_op, h]
  refine ⟨⟨?_, rfl, ?_, ?_⟩, ?_, ?_⟩
  · rw [hsc]; exact boundedCount_le _ 0 200
  · intro j hj
    rw [hsc] at hj
    simpa using (boundedCount_spec (fun k => srcIterCompletes (envS k)) 0 200).1 j hj
  · intro hlt
    rw [hsc] at hlt ⊢
    simpa using (boundedCount_spec (fun k => srcIterCompletes (envS k)) 0 200).2 hlt
  · intro hpar
    simp [clear_studio_op, hpar]
  · intro hpar
    have hsu : (clear_studio_op envA).success =
        decide (0 < (clear_studio_op envA).count) := by
      simp [clear_studio_op, hpar]
    refine ⟨?_, hsu, ?_, ?_⟩
    · rw [hac hpar]; exact boundedCount_le _ 0 200
    · intro j hj
      rw [hac hpar] at hj
      simpa using (boundedCount_spec (fun k => studioIterCompletes (envA.iters k)) 0 200).1 j hj
    · intro hlt
      rw [hac hpar] at hlt ⊢
      simpa using (boundedCount_spec (fun k => studioIterCompletes (envA.iters k)) 0 200).2 hlt

/-- Two source items then an empty list. -/
def srcEnvW : Nat → SrcIter := fun k =>
  if k < 2 then ⟨1, true, true, true, true, true, true, true⟩
  else ⟨0, true, true, true, true, true, true, true⟩

/-- Three generated items then an empty list, library present. -/
def studioEnvW : StudioEnv :=
  ⟨true, fun k =>
    if k < 3 then ⟨1, true, true, true, true, true⟩
    else ⟨0, false, false, false, false, false⟩⟩

/-- C7 witness: the concrete runs stay within the bound, count the completed
iterations (2 and 3), and the absent-library path reports failure. -/
theorem clear_ops_bounded_count_witness :
    (clear_sources srcEnvW).count ≤ 200 ∧
    (clear_sources srcEnvW).count = 2 ∧
    (clear_sources srcEnvW).success = true ∧
    (clear_studio_op studioEnvW).count ≤ 200 ∧
    (clear_studio_op studioEnvW).count = 3 ∧
    clear_studio_op { parentPresent := false, iters := studioEnvW.iters } =
      ⟨false, 0, some "No generated items found"⟩ :=
  ⟨(clear_ops_bounded_count srcEnvW studioEnvW).1.1, by decide, by decide,
   ((clear_ops_bounded_count srcEnvW studioEnvW).2.2 rfl).1, by decide,
   (clear_ops_bounded_count srcEnvW
     { parentPresent := false, iters := studioEnvW.iters }).2.1 rfl⟩

/-! ## `NotebookLMAutomator.connect` / `close` (`core/automator.py`) -/

/-- A page handle as the automator sees it: only liveness matters here. -/
structure PageRef where
  closed : Bool
deriving DecidableEq, Repr

/-- The internal references of the automator object: page, browser handle,
driver handle, and the two sub-components built by `_init_managers`. -/
structure AutomatorState where
  page : Option PageRef
  browser : Bool
  playwright : Bool
  sourceManager : Bool
  audioManager : Bool
deriving DecidableEq, Repr

/-- `self.page and not self.page.is_closed()`. -/
def isLivePage : Option PageRef → Bool
  | some p => !p.closed
  | none => false

/-- Embedding of `close`: each underlying close is guarded on its own, every
reference is nulled afterwards, and `ChromeManager.terminate` (whose body is
fully guarded) cannot raise, so `close` is total and forgets everything. -/
def close (_ : AutomatorState) : AutomatorState :=
  ⟨none, false, false, false, false⟩

/-- Outcomes of the fallible collaborator calls made while connecting:
starting the driver, ensuring/connecting the browser endpoint, obtaining a
context, scanning for an existing notebook page (CDP mode only), reading the
auth state, opening a page and navigating to the notebook URL.  The
network-idle wait and the account chooser are internally guarded and cannot
raise. -/
structure ConnectEnv where
  startOk : Bool
  wsEndpoint : Option String
  ensureRunningOk : Bool
  connectOk : Bool
  contextOk : Bool
  existingNotebookPage : Option PageRef
  authOk : Bool
  newPageOk : Bool
  gotoOk : Bool

/-- The tail of the connect sequence when no existing notebook page is
reused: inject auth state, open a page, navigate, then build the managers. -/
def newPagePath (env : ConnectEnv) (s : AutomatorState) :
    Except (String × AutomatorState) AutomatorState :=
  if !env.authOk then Except.error ("auth state lookup failed", s)
  else if !env.newPageOk then Except.error ("new_page failed", s)
  else
    let s2 := { s with page := some ⟨false⟩ }
    if !env.gotoOk then Except.error ("goto timeout", s2)
    else Except.ok { s2 with sourceManager := true, audioManager := true }

/-- The body of the `try:` in `connect`: websocket mode connects and makes a
fresh context; CDP mode ensures a local endpoint, connects, takes the first
context and prefers an existing notebook page before opening a new one. -/
def connectBody (env : ConnectEnv) (s : AutomatorState) :
    Except (String × AutomatorState) AutomatorState :=
  match env.wsEndpoint with
  | some _ =>
      if !env.connectOk then Except.error ("connect_over_cdp failed", s)
      else
        let s2 := { s with browser := true }
        if !env.contextOk then Except.error ("new_context failed", s2)
        else newPagePath env s2
  | none =>
      if !env.ensureRunningOk then Except.error ("ensure_running failed", s)
      else if !env.connectOk then Except.error ("connect_over_cdp failed", s)
      else
        let s2 := { s with browser := true }
        if !env.contextOk then Except.error ("no browser context", s2)
        else
          match env.existingNotebookPage with
          | some p =>
              Except.ok { s2 with page := some p, sourceManager := true, audioManager := true }
          | none => newPagePath env s2

/-- Embedding of `connect`: immediate no-op on a live page; otherwise the
old driver handle is stopped (guarded) and nulled, the driver is restarted
OUTSIDE the guarded region, and the guarded body runs with `except: close();
raise` as its catch. -/
def connect (env : ConnectEnv) (s : AutomatorState) :
    Except (String × AutomatorState) AutomatorState :=
  if isLivePage s.page then Except.ok s
  else
    let s1 := { s with playwright := false }
    if !env.startOk then Except.error ("sync_playwright start failed", s1)
    else
      let s2 := { s1 with playwright := true }
      match connectBody env s2 with
      | Except.ok s3 => Except.ok s3
      | Except.error (e, s3) => Except.error (e, close s3)

/-- A state left over from a dead session: closed page, stale browser and
driver handles, managers still set. -/
def staleState : AutomatorState := ⟨some ⟨true⟩, true, true, true, true⟩

/-- An environment where starting the playwright driver raises. -/
def connectBadEnv : ConnectEnv :=
  { startOk := false, wsEndpoint := none, ensureRunningOk := true,
    connectOk := true, contextOk := true, existingNotebookPage := none,
    authOk := true, newPageOk := true, gotoOk := true }

/-- C9 (counterexample): when `sync_playwright().start()` raises — it sits
before the `try:` whose `except` does the teardown — `connect` rethrows with
the stale browser handle and closed-page reference still set, so a caller
can observe a half-torn-down automator. -/
theorem connect_start_failure_counterexample :
    connect connectBadEnv staleState =
      Except.error ("sync_playwright start failed",
        { staleState with playwright := false }) ∧
    ({ staleState with playwright := false } : AutomatorState).browser = true ∧
    ({ staleState with playwright := false } : AutomatorState).page ≠ none := by
  refine ⟨by decide, by decide, by decide⟩

/-- C9 (amended): `connect` is a no-op on a live page, and whenever an
exception occurs during the connect sequence after the driver handle has
been (re)started, `connect` performs the full teardown — page, browser and
driver handles and both sub-components nulled — before rethrowing. -/
theorem connect_noop_and_teardown (env : ConnectEnv) (s : AutomatorState) :
    (isLivePage s.page = true → connect env s = Except.ok s) ∧
    (∀ e s2, env.startOk = true → connect env s = Except.error (e, s2) →
      s2 = ⟨none, false, false, false, false⟩) := by
  constructor
  · intro h; simp [connect, h]
  · intro e s2 hstart h
    simp only [connect] at h
    by_cases hl : isLivePage s.page = true
    · rw [if_pos hl] at h
      exact absurd h (by simp)
    · rw [if_neg hl, if_neg (by simp [hstart])] at h
      split at h
      · exact absurd h (by simp)
      · simp only [Except.error.injEq, Prod.mk.injEq, close] at h
        exact h.2.symm

/-- A CDP-mode environment where connecting to the endpoint raises. -/
def connectEnvW : ConnectEnv :=
  { startOk := true, wsEndpoint := none, ensureRunningOk := true,
    connectOk := false, contextOk := true, existingNotebookPage := none,
    authOk := true, newPageOk := true, gotoOk := true }

/-- C9 witness: a live page makes `connect` a no-op; a failed endpoint
connection rethrows with every reference nulled. -/
theorem connect_noop_and_teardown_witness :
    connect connectEnvW ⟨some ⟨false⟩, true, true, true, true⟩ =
      Except.ok ⟨some ⟨false⟩, true, true, true, true⟩ ∧
    connect connectEnvW ⟨none, true, true, true, true⟩ =
      Except.error ("connect_over_cdp failed", ⟨none, false, false, false, false⟩) ∧
    (⟨none, false, false, false, false⟩ : AutomatorState) =
      ⟨none, false, false, false, false⟩ :=
  ⟨(connect_noop_and_teardown connectEnvW ⟨some ⟨false⟩, true, true, true, true⟩).1 rfl,
   by decide,
   (connect_noop_and_teardown connectEnvW ⟨none, true, true, true, true⟩).2
     "connect_over_cdp failed" ⟨none, false, false, false, false⟩ rfl (by decide)⟩
